import Mathlib

/-
  Verification development for the Vulkan bring-up program in
  src/DrawTriangle/main.cpp (repository vulkan_shenanigans).

  The program is shallowly embedded: driver / windowing-system responses are
  packaged in a `DeviceProfile` / `Env` record and each C++ routine becomes a
  Lean function over those records.  `uint32_t` values are modelled as `Nat`
  (with an explicit `% 2^32` at the single spot where overflow is possible);
  C++ exceptions become `Except`, `std::optional` becomes `Option`.
-/

namespace VulkanBringUp

/-! ## Constants (values of the Vulkan enumerations used by the program) -/

def WIDTH : Nat := 800

def HEIGHT : Nat := 600

/-- 2^32, the modulus of `uint32_t` arithmetic. -/
def UINT32_MOD : Nat := 4294967296

/-- `std::numeric_limits<uint32_t>::max()`. -/
def UINT32_MAX : Nat := 4294967295

def VK_QUEUE_GRAPHICS_BIT : Nat := 1

def VK_FORMAT_B8G8R8A8_SRGB : Nat := 50

def VK_COLOR_SPACE_SRGB_NONLINEAR_KHR : Nat := 0

def VK_PRESENT_MODE_IMMEDIATE_KHR : Nat := 0

def VK_PRESENT_MODE_MAILBOX_KHR : Nat := 1

def VK_PRESENT_MODE_FIFO_KHR : Nat := 2

def VK_KHR_SWAPCHAIN_EXTENSION_NAME : String := "VK_KHR_swapchain"

def VK_EXT_DEBUG_UTILS_EXTENSION_NAME : String := "VK_EXT_debug_utils"

/-- `const std::vector<const char*> validationLayers` (main.cpp:52). -/
def validationLayers : List String := ["VK_LAYER_KHRONOS_validation"]

/-- `const std::vector<const char*> deviceExtensions` (main.cpp:57). -/
def deviceExtensions : List String := [VK_KHR_SWAPCHAIN_EXTENSION_NAME]

/-! ## Data model -/

structure Extent2D where
  width : Nat
  height : Nat
deriving DecidableEq

structure SurfaceCapabilities where
  minImageCount : Nat
  maxImageCount : Nat
  currentExtent : Extent2D
  minImageExtent : Extent2D
  maxImageExtent : Extent2D
  currentTransform : Nat
deriving DecidableEq

structure SurfaceFormat where
  format : Nat
  colorSpace : Nat
deriving DecidableEq

/-- One queue family of an adapter, together with the answer the driver gives
to `vkGetPhysicalDeviceSurfaceSupportKHR` for this family's index. -/
structure QueueFamily where
  queueFlags : Nat
  presentSupport : Bool
deriving DecidableEq

/-- Everything the driver reports about one physical device for the fixed
(instance, surface) pair of the program. -/
structure DeviceProfile where
  queueFamilies : List QueueFamily
  supportedExtensions : List String
  capabilities : SurfaceCapabilities
  surfaceFormats : List SurfaceFormat
  surfacePresentModes : List Nat
deriving DecidableEq

/-- `struct QueueFamilyIndices` (main.cpp:35). -/
structure QueueFamilyIndices where
  graphicsFamily : Option Nat := none
  presentFamily : Option Nat := none
deriving DecidableEq

/-- `QueueFamilyIndices::isComplete` (main.cpp:39). -/
def QueueFamilyIndices.isComplete (q : QueueFamilyIndices) : Bool :=
  q.graphicsFamily.isSome && q.presentFamily.isSome

/-- `struct SwapChainSupportDetails` (main.cpp:45). -/
structure SwapChainSupportDetails where
  capabilities : SurfaceCapabilities
  formats : List SurfaceFormat
  presentModes : List Nat
deriving DecidableEq

/-! ## Queue family resolution (`findQueueFamilies`, main.cpp:398) -/

/-- Loop body of `findQueueFamilies`: walk the families in reported order with
index `i`; record the index on a GRAPHICS flag and on reported presentation
support; break as soon as both roles are assigned. -/
def findQueueFamiliesAux : List QueueFamily → Nat → QueueFamilyIndices → QueueFamilyIndices
  | [], _, indices => indices
  | qf :: rest, i, indices =>
    let indices :=
      if Nat.land qf.queueFlags VK_QUEUE_GRAPHICS_BIT ≠ 0 then
        { indices with graphicsFamily := some i }
      else indices
    let indices :=
      if qf.presentSupport then { indices with presentFamily := some i } else indices
    if indices.isComplete then indices else findQueueFamiliesAux rest (i + 1) indices

/-- `findQueueFamilies` (main.cpp:398). -/
def findQueueFamilies (d : DeviceProfile) : QueueFamilyIndices :=
  findQueueFamiliesAux d.queueFamilies 0 {}

/-! ## Device extension check (`checkDeviceExtensionSupport`, main.cpp:336) -/

/-- `checkDeviceExtensionSupport` (main.cpp:336): the required set minus the
available set must be empty. -/
def checkDeviceExtensionSupport (d : DeviceProfile) : Bool :=
  (deviceExtensions.filter (fun e => !(d.supportedExtensions.contains e))).isEmpty

/-! ## Swap-chain support query (`querySwapChainSupport`, main.cpp:505) -/

/-- `querySwapChainSupport` (main.cpp:505).  The formats query is performed
correctly.  The present-modes part reproduces the source verbatim: the count
is obtained by calling `vkGetPhysicalDeviceSurfaceFormatsKHR` (main.cpp:518,
so it is the number of surface formats), the vector is resized to that count,
and the follow-up `vkGetPhysicalDeviceSurfacePresentModesKHR` call passes a
null data pointer (main.cpp:521), so the vector keeps its value-initialized
entries (`0 = VK_PRESENT_MODE_IMMEDIATE_KHR`). -/
def querySwapChainSupport (d : DeviceProfile) : SwapChainSupportDetails :=
  let formatCount := d.surfaceFormats.length
  let formats := if formatCount ≠ 0 then d.surfaceFormats else []
  let presentModeCount := d.surfaceFormats.length
  let presentModes :=
    if presentModeCount ≠ 0 then
      List.replicate presentModeCount VK_PRESENT_MODE_IMMEDIATE_KHR
    else []
  { capabilities := d.capabilities, formats := formats, presentModes := presentModes }

/-! ## Suitability and physical device selection (main.cpp:298, 322) -/

/-- `isDeviceSuitable` (main.cpp:322).  Note the final line of the source
returns `indices.graphicsFamily.has_value() && extensionsSupported &&
swapChainAdequate` — it does NOT call `indices.isComplete()`. -/
def isDeviceSuitable (d : DeviceProfile) : Bool :=
  let indices := findQueueFamilies d
  let extensionsSupported := checkDeviceExtensionSupport d
  let swapChainAdequate :=
    if extensionsSupported then
      let swapChainSupport := querySwapChainSupport d
      !swapChainSupport.formats.isEmpty && !swapChainSupport.presentModes.isEmpty
    else false
  indices.graphicsFamily.isSome && extensionsSupported && swapChainAdequate

/-- `pickPhysicalDevice` (main.cpp:298): throw on zero adapters, otherwise
take the first suitable adapter in enumeration order, throwing when none is. -/
def pickPhysicalDeviceS (devices : List DeviceProfile) : Except String DeviceProfile :=
  if devices.isEmpty then Except.error "Failed to find GPUs with Vulkan support"
  else
    match devices.find? isDeviceSuitable with
    | some d => Except.ok d
    | none => Except.error "Failed to find a suitable GPU!"

/-! ## Swap-chain negotiation helpers (main.cpp:441, 528, 539) -/

/-- The preference tested by the loop of `chooseSwapSurfaceFormat`
(main.cpp:443). -/
def isPreferredFormat (f : SurfaceFormat) : Bool :=
  f.format == VK_FORMAT_B8G8R8A8_SRGB && f.colorSpace == VK_COLOR_SPACE_SRGB_NONLINEAR_KHR

/-- `chooseSwapSurfaceFormat` (main.cpp:441): first preferred pair, otherwise
`availableFormats[0]`.  The unguarded `[0]` on an empty vector is undefined
behaviour in the source; it is modelled as `none` (via `head?`). -/
def chooseSwapSurfaceFormat (availableFormats : List SurfaceFormat) : Option SurfaceFormat :=
  match availableFormats.find? isPreferredFormat with
  | some f => some f
  | none => availableFormats.head?

/-- `chooseSwapPresentMode` (main.cpp:528): MAILBOX if offered, else FIFO. -/
def chooseSwapPresentMode (availablePresentModes : List Nat) : Nat :=
  match availablePresentModes.find? (fun m => m == VK_PRESENT_MODE_MAILBOX_KHR) with
  | some m => m
  | none => VK_PRESENT_MODE_FIFO_KHR

/-- `std::clamp(v, lo, hi)` as used at main.cpp:551. -/
def cppClamp (v lo hi : Nat) : Nat :=
  if v < lo then lo else if hi < v then hi else v

/-- `chooseSwapExtent` (main.cpp:539).  `fbWidth`/`fbHeight` are the pixel
sizes reported by `glfwGetFramebufferSize` (already cast to `uint32_t`). -/
def chooseSwapExtent (fbWidth fbHeight : Nat) (capabilities : SurfaceCapabilities) : Extent2D :=
  if capabilities.currentExtent.width ≠ UINT32_MAX then capabilities.currentExtent
  else
    { width := cppClamp fbWidth capabilities.minImageExtent.width capabilities.maxImageExtent.width
      height := cppClamp fbHeight capabilities.minImageExtent.height capabilities.maxImageExtent.height }

/-! ## Swap-chain creation record (`createSwapChain`, main.cpp:452) -/

inductive SharingMode where
  | exclusive
  | concurrent
deriving DecidableEq

/-- The fields of `VkSwapchainCreateInfoKHR` that the program fills in
(main.cpp:463-490). -/
structure SwapchainCreateInfo where
  minImageCount : Nat
  imageFormat : Nat
  imageColorSpace : Nat
  imageExtent : Extent2D
  imageArrayLayers : Nat
  imageSharingMode : SharingMode
  queueFamilyIndexCount : Nat
  pQueueFamilyIndices : List Nat
  preTransform : Nat
  presentMode : Nat
  clipped : Bool
deriving DecidableEq

/-- The pure part of `createSwapChain` (main.cpp:452-490): negotiate the
configuration and build the creation record.  `none` models the two
exceptional exits on this path: the undefined `availableFormats[0]` read when
the format list is empty, and the `std::optional::value()` throw at
main.cpp:474 when a queue family role is unassigned.  In the exclusive branch
`queueFamilyIndexCount`/`pQueueFamilyIndices` keep the zero-initialized
values of `createInfo{}` (the assignments are commented out in the source). -/
def createSwapChainInfo (fbWidth fbHeight : Nat) (d : DeviceProfile) : Option SwapchainCreateInfo :=
  let details := querySwapChainSupport d
  match chooseSwapSurfaceFormat details.formats with
  | none => none
  | some surfaceFormat =>
    let presentMode := chooseSwapPresentMode details.presentModes
    let extent := chooseSwapExtent fbWidth fbHeight details.capabilities
    let imageCount := (details.capabilities.minImageCount + 1) % UINT32_MOD
    let imageCount :=
      if 0 < details.capabilities.maxImageCount ∧ imageCount > details.capabilities.maxImageCount
      then details.capabilities.maxImageCount else imageCount
    let indices := findQueueFamilies d
    match indices.graphicsFamily, indices.presentFamily with
    | some g, some p =>
      some { minImageCount := imageCount
             imageFormat := surfaceFormat.format
             imageColorSpace := surfaceFormat.colorSpace
             imageExtent := extent
             imageArrayLayers := 1
             imageSharingMode := if g ≠ p then SharingMode.concurrent else SharingMode.exclusive
             queueFamilyIndexCount := if g ≠ p then 2 else 0
             pQueueFamilyIndices := if g ≠ p then [g, p] else []
             preTransform := details.capabilities.currentTransform
             presentMode := presentMode
             clipped := true }
    | _, _ => none

/-! ## Instance creation record (`createInstance`, main.cpp:177;
`getRequiredExtensions`, main.cpp:271) -/

/-- `getRequiredExtensions` (main.cpp:271): the toolkit-reported extensions,
with the debug-utils extension pushed back iff validation is enabled. -/
def getRequiredExtensions (glfwExtensions : List String) (enableValidation : Bool) : List String :=
  glfwExtensions ++ if enableValidation then [VK_EXT_DEBUG_UTILS_EXTENSION_NAME] else []

/-- The fields of `VkInstanceCreateInfo` the program fills in. -/
structure InstanceCreateInfo where
  enabledExtensionNames : List String
  enabledLayerNames : List String
  hasDebugCreateInfoChained : Bool
deriving DecidableEq

/-- The creation record built by `createInstance` (main.cpp:195-217), field
assignment by field assignment: the extension slot is first filled with
`deviceExtensions` (main.cpp:198-199) and later overwritten with
`getRequiredExtensions()` (main.cpp:215-217); the layer list and the chained
debug-messenger record are set iff validation is enabled. -/
def buildInstanceCreateInfo (glfwExtensions : List String) (enableValidation : Bool) : InstanceCreateInfo :=
  let createInfo : InstanceCreateInfo :=
    { enabledExtensionNames := deviceExtensions
      enabledLayerNames := []
      hasDebugCreateInfoChained := false }
  let createInfo :=
    if enableValidation then
      { createInfo with enabledLayerNames := validationLayers, hasDebugCreateInfoChained := true }
    else
      { createInfo with enabledLayerNames := [], hasDebugCreateInfoChained := false }
  { createInfo with
      enabledExtensionNames := getRequiredExtensions glfwExtensions enableValidation }

/-! ## Application lifecycle (run / cleanup / main, main.cpp:101, 154, 573) -/

/-- The owned handles of `HelloTriangleApplication` (plus the toolkit,
acquired by `glfwInit` and given back by `glfwTerminate`). -/
inductive Handle where
  | toolkit
  | window
  | vinstance
  | debugMessenger
  | surface
  | device
  | swapChain
deriving DecidableEq, Fintype

/-- Acquisition and release events, in the order they happened. -/
structure AppState where
  acquired : List Handle := []
  released : List Handle := []
deriving DecidableEq

def acquireS (h : Handle) (s : AppState) : AppState :=
  { s with acquired := s.acquired ++ [h] }

def releaseS (h : Handle) (s : AppState) : AppState :=
  { s with released := s.released ++ [h] }

/-- The environment of one run: the compile-time validation flag and the
responses of the toolkit and the driver. -/
structure Env where
  enableValidationLayers : Bool
  availableLayers : List String
  glfwExtensions : List String
  instanceCreateOk : Bool
  debugMessengerCreateOk : Bool
  surfaceCreateOk : Bool
  devices : List DeviceProfile
  deviceCreateOk : Bool
  swapChainCreateOk : Bool
  fbWidth : Nat
  fbHeight : Nat
deriving DecidableEq

/-- A stage either throws (carrying the state at the throw site) or returns
the updated state.  C++ exceptions map to `Except.error`. -/
abbrev StageResult := Except (String × AppState) AppState

/-- `checkValidationLayerSupport` (main.cpp:247): every requested layer must
occur among the enumerated layers. -/
def checkValidationLayerSupport (env : Env) : Bool :=
  validationLayers.all (fun layerName => env.availableLayers.contains layerName)

/-- `initWindow` (main.cpp:127): `glfwInit` then `glfwCreateWindow`.  Neither
result is checked in the source, so this stage never fails. -/
def initWindowS (s : AppState) : AppState :=
  acquireS Handle.window (acquireS Handle.toolkit s)

/-- `createInstance` (main.cpp:177): layer check, then the driver call. -/
def createInstanceS (env : Env) (s : AppState) : StageResult :=
  if env.enableValidationLayers && !(checkValidationLayerSupport env) then
    Except.error ("Requested validation layers not available!", s)
  else if env.instanceCreateOk then Except.ok (acquireS Handle.vinstance s)
  else Except.error ("Failed to create instance", s)

/-- `setupDebugMessenger` (main.cpp:235): early return when validation is
off, else create the messenger. -/
def setupDebugMessengerS (env : Env) (s : AppState) : StageResult :=
  if !env.enableValidationLayers then Except.ok s
  else if env.debugMessengerCreateOk then Except.ok (acquireS Handle.debugMessenger s)
  else Except.error ("Failed to set up debug messenger", s)

/-- `createSurface` (main.cpp:434). -/
def createSurfaceS (env : Env) (s : AppState) : StageResult :=
  if env.surfaceCreateOk then Except.ok (acquireS Handle.surface s)
  else Except.error ("Failed to create window surface", s)

/-- `createLogicalDevice` (main.cpp:353): dereferences both queue family
optionals (`value()` throws `bad_optional_access` on an empty optional,
graphics first per initializer-list order), then creates the device.  The
physical device is non-owning, so no handle is tracked for it. -/
def createLogicalDeviceS (env : Env) (d : DeviceProfile) (s : AppState) : StageResult :=
  match (findQueueFamilies d).graphicsFamily with
  | none => Except.error ("bad optional access", s)
  | some _ =>
    match (findQueueFamilies d).presentFamily with
    | none => Except.error ("bad optional access", s)
    | some _ =>
      if env.deviceCreateOk then Except.ok (acquireS Handle.device s)
      else Except.error ("Failed to create logical device", s)

/-- `createSwapChain` (main.cpp:452): build the record (whose construction
can itself throw, see `createSwapChainInfo`), then the driver call. -/
def createSwapChainS (env : Env) (d : DeviceProfile) (s : AppState) : StageResult :=
  match createSwapChainInfo env.fbWidth env.fbHeight d with
  | none => Except.error ("bad optional access", s)
  | some _ =>
    if env.swapChainCreateOk then Except.ok (acquireS Handle.swapChain s)
    else Except.error ("Failed to create swap chain", s)

/-- `cleanup` (main.cpp:154), in source order: swap chain, device, debug
messenger (iff validation), surface, instance, window, `glfwTerminate`. -/
def cleanupS (env : Env) (s : AppState) : AppState :=
  let s := releaseS Handle.swapChain s
  let s := releaseS Handle.device s
  let s := if env.enableValidationLayers then releaseS Handle.debugMessenger s else s
  let s := releaseS Handle.surface s
  let s := releaseS Handle.vinstance s
  let s := releaseS Handle.window s
  releaseS Handle.toolkit s

/-- One event of the teardown sequence: a handle passed as the owner
argument of a destroy call, or a handle being destroyed. -/
inductive CleanupEvent where
  | use : Handle → CleanupEvent
  | destroy : Handle → CleanupEvent
deriving DecidableEq

/-- The handle an event involves. -/
def CleanupEvent.handleOf : CleanupEvent → Handle
  | CleanupEvent.use h => h
  | CleanupEvent.destroy h => h

/-- The destroyed handles of a trace, in order. -/
def destroysOf (trace : List CleanupEvent) : List Handle :=
  trace.filterMap (fun e =>
    match e with
    | CleanupEvent.destroy h => some h
    | CleanupEvent.use _ => none)

/-- `cleanup` (main.cpp:154) as its sequence of handle events, call by call:
`vkDestroySwapchainKHR(device, swapChain, _)` uses the device and destroys
the swap chain; `vkDestroyDevice(device, _)` destroys the device;
`DestroyDebugUtilsMessengerEXT(instance, debugMessenger, _)` (iff validation)
uses the instance twice — in `vkGetInstanceProcAddr(instance, ...)` at
main.cpp:91 and as the first argument of the resolved entrypoint at
main.cpp:93 — and destroys the messenger; `vkDestroySurfaceKHR(instance,
surface, _)` uses the instance and destroys the surface;
`vkDestroyInstance(instance, _)` destroys the instance;
`glfwDestroyWindow(window)` destroys the window; `glfwTerminate()` gives the
toolkit back. -/
def cleanupTrace (enableValidation : Bool) : List CleanupEvent :=
  [CleanupEvent.use Handle.device, CleanupEvent.destroy Handle.swapChain,
   CleanupEvent.destroy Handle.device]
  ++ (if enableValidation then
        [CleanupEvent.use Handle.vinstance, CleanupEvent.use Handle.vinstance,
         CleanupEvent.destroy Handle.debugMessenger]
      else [])
  ++ [CleanupEvent.use Handle.vinstance, CleanupEvent.destroy Handle.surface,
      CleanupEvent.destroy Handle.vinstance,
      CleanupEvent.destroy Handle.window,
      CleanupEvent.destroy Handle.toolkit]

/-- `main` driving `run()` (main.cpp:101, 573): `initWindow`, the six
`initVulkan` substages, the event loop (pure), then `cleanup` — with no
try/catch inside `run`, so any throw skips `cleanup` and lands in `main`'s
handler, which returns `EXIT_FAILURE` (modelled as exit code 1). -/
def appMain (env : Env) : Nat × AppState :=
  match createInstanceS env (initWindowS {}) with
  | Except.error e => (1, e.snd)
  | Except.ok s =>
    match setupDebugMessengerS env s with
    | Except.error e => (1, e.snd)
    | Except.ok s =>
      match createSurfaceS env s with
      | Except.error e => (1, e.snd)
      | Except.ok s =>
        match pickPhysicalDeviceS env.devices with
        | Except.error _ => (1, s)
        | Except.ok d =>
          match createLogicalDeviceS env d s with
          | Except.error e => (1, e.snd)
          | Except.ok s =>
            match createSwapChainS env d s with
            | Except.error e => (1, e.snd)
            | Except.ok s => (0, cleanupS env s)

/-! ## Concrete fixtures used by witnesses and counterexamples -/

/-- Unremarkable surface capabilities: `maxImageCount = 0` means unbounded. -/
def capDefault : SurfaceCapabilities :=
  { minImageCount := 2, maxImageCount := 0
    currentExtent := { width := 800, height := 600 }
    minImageExtent := { width := 1, height := 1 }
    maxImageExtent := { width := 4096, height := 4096 }
    currentTransform := 1 }

/-- An adapter with a single GRAPHICS queue family that has NO presentation
support, but with the swap-chain extension and a non-empty format list. -/
def devNoPresent : DeviceProfile :=
  { queueFamilies := [{ queueFlags := 1, presentSupport := false }]
    supportedExtensions := ["VK_KHR_swapchain"]
    capabilities := capDefault
    surfaceFormats := [{ format := 50, colorSpace := 0 }]
    surfacePresentModes := [2] }

/-- An adapter whose driver reports one surface format and the two present
modes FIFO (2) and MAILBOX (1). -/
def devTwoModes : DeviceProfile :=
  { queueFamilies := [{ queueFlags := 1, presentSupport := true }]
    supportedExtensions := ["VK_KHR_swapchain"]
    capabilities := capDefault
    surfaceFormats := [{ format := 50, colorSpace := 0 }]
    surfacePresentModes := [2, 1] }

/-- A fully suitable adapter: one queue family with both roles. -/
def devE1 : DeviceProfile :=
  { queueFamilies := [{ queueFlags := 1, presentSupport := true }]
    supportedExtensions := ["VK_KHR_swapchain"]
    capabilities := capDefault
    surfaceFormats := [{ format := 50, colorSpace := 0 }]
    surfacePresentModes := [2] }

/-- An adapter with a GRAPHICS-only family at index 0 and a
presentation-only family at index 1. -/
def devE3 : DeviceProfile :=
  { queueFamilies := [{ queueFlags := 1, presentSupport := false },
                      { queueFlags := 2, presentSupport := true }]
    supportedExtensions := ["VK_KHR_swapchain"]
    capabilities := capDefault
    surfaceFormats := [{ format := 50, colorSpace := 0 }]
    surfacePresentModes := [2] }

/-- A suitable adapter whose capabilities report
`minImageCount = maxImageCount = 2` (legal per the Vulkan spec). -/
def devMinMax : DeviceProfile :=
  { queueFamilies := [{ queueFlags := 1, presentSupport := true }]
    supportedExtensions := ["VK_KHR_swapchain"]
    capabilities := { capDefault with minImageCount := 2, maxImageCount := 2 }
    surfaceFormats := [{ format := 50, colorSpace := 0 }]
    surfacePresentModes := [2] }

/-- Scenario E4 of the spec: `currentExtent.width = 0xFFFFFFFF`, framebuffer
clamp bounds 640x480 .. 1280x1024. -/
def capE4 : SurfaceCapabilities :=
  { minImageCount := 2, maxImageCount := 3
    currentExtent := { width := 4294967295, height := 600 }
    minImageExtent := { width := 640, height := 480 }
    maxImageExtent := { width := 1280, height := 1024 }
    currentTransform := 1 }

/-- A format list whose preferred (BGRA8 sRGB, sRGB nonlinear) pair sits in
the middle. -/
def lC9 : List SurfaceFormat :=
  [{ format := 10, colorSpace := 5 }, { format := 50, colorSpace := 0 },
   { format := 99, colorSpace := 99 }]

/-- An environment in which every external call succeeds (validation on). -/
def envOK : Env :=
  { enableValidationLayers := true
    availableLayers := ["VK_LAYER_KHRONOS_validation"]
    glfwExtensions := ["VK_KHR_surface"]
    instanceCreateOk := true
    debugMessengerCreateOk := true
    surfaceCreateOk := true
    devices := [devE1]
    deviceCreateOk := true
    swapChainCreateOk := true
    fbWidth := 800
    fbHeight := 600 }

/-- Scenario E2 of the spec: validation requested but the layer is not
advertised, everything else fine. -/
def envE2 : Env := { envOK with availableLayers := [] }

/-! ## Claim C1 -/

/-- Claim C1: the claim requires that an adapter whose presentation family is
absent is never selected; the code selects exactly such an adapter.
`devNoPresent` has a graphics family but no presentation family, supports the
required extension and reports a non-empty format list: `isDeviceSuitable`
(main.cpp:332) accepts it because it tests only `graphicsFamily.has_value()`
instead of `isComplete()`, `pickPhysicalDevice` returns it, and the very next
stage `createLogicalDevice` then throws on `presentFamily.value()`. -/
theorem c1_selection_accepts_incomplete_adapter :
    pickPhysicalDeviceS [devNoPresent] = Except.ok devNoPresent
    ∧ (findQueueFamilies devNoPresent).presentFamily = none
    ∧ (findQueueFamilies devNoPresent).isComplete = false
    ∧ createLogicalDeviceS envOK devNoPresent { acquired := [], released := [] } =
        Except.error ("bad optional access", { acquired := [], released := [] }) :=
  ⟨rfl, rfl, rfl, rfl⟩

/-! ## Claim C2 -/

/-- Claim C2: the claim requires the present-modes query to fill
`presentModes` with exactly the modes the driver reports.  For a driver
reporting one surface format and the present modes [FIFO, MAILBOX], the
source's `querySwapChainSupport` (main.cpp:517-522) instead produces a list
whose length is the FORMAT count (the count query calls
`vkGetPhysicalDeviceSurfaceFormatsKHR`) and whose entries are the
value-initialized zeros (= IMMEDIATE) left by resize, because the data query
passes a null pointer. -/
theorem c2_present_modes_query_is_wrong :
    devTwoModes.surfacePresentModes = [VK_PRESENT_MODE_FIFO_KHR, VK_PRESENT_MODE_MAILBOX_KHR]
    ∧ (querySwapChainSupport devTwoModes).presentModes = [VK_PRESENT_MODE_IMMEDIATE_KHR]
    ∧ (querySwapChainSupport devTwoModes).presentModes ≠ devTwoModes.surfacePresentModes
    ∧ (querySwapChainSupport devTwoModes).presentModes.length =
        (querySwapChainSupport devTwoModes).formats.length := by
  decide

/-! ## Claim C3 -/

/-- Claim C3, counterexample: in scenario E2 (validation layers requested but
unavailable) the run fails with a non-zero exit code, the window HAS been
acquired, yet nothing at all is released — the window is not destroyed, so
the claimed "each released exactly once before the error propagates" is false
at this input. -/
theorem c3_counterexample :
    (appMain envE2).fst = 1
    ∧ Handle.window ∈ (appMain envE2).snd.acquired
    ∧ (appMain envE2).snd.released.count Handle.window = 0
    ∧ (appMain envE2).snd.released = [] := by
  decide

/-! ## Claim C4 -/

/-- Claim C4, counterexample: on a fully successful run with validation
enabled the teardown sequence is NOT the exact reverse of the acquisition
sequence — the debug messenger (acquired before the surface) is also
destroyed before the surface. -/
theorem c4_counterexample :
    (appMain envOK).fst = 0
    ∧ (appMain envOK).snd.acquired.reverse =
        [Handle.swapChain, Handle.device, Handle.surface, Handle.debugMessenger,
         Handle.vinstance, Handle.window, Handle.toolkit]
    ∧ (appMain envOK).snd.released =
        [Handle.swapChain, Handle.device, Handle.debugMessenger, Handle.surface,
         Handle.vinstance, Handle.window, Handle.toolkit]
    ∧ (appMain envOK).snd.released ≠ (appMain envOK).snd.acquired.reverse := by
  decide

/-! ## Claim C6 -/

/-- Claim C6, counterexample: for capabilities with
`minImageCount = maxImageCount = 2` (legal per Vulkan) the code requests
`maxImageCount = 2` images, and the claimed consequence
`minImageCount + 1 ≤ c` fails (3 ≤ 2 is false). -/
theorem c6_counterexample :
    devMinMax.capabilities.minImageCount = 2
    ∧ devMinMax.capabilities.maxImageCount = 2
    ∧ (createSwapChainInfo 800 600 devMinMax).map SwapchainCreateInfo.minImageCount = some 2
    ∧ ¬(devMinMax.capabilities.minImageCount + 1 ≤ 2) := by
  decide

/-! ## Helper lemmas -/

theorem cppClamp_eq_min_max (v lo hi : Nat) (h : lo ≤ hi) :
    cppClamp v lo hi = min (max v lo) hi := by
  unfold cppClamp
  rcases Nat.lt_or_ge v lo with hv | hv
  · rw [if_pos hv]; omega
  · rw [if_neg (Nat.not_lt.mpr hv)]
    rcases Nat.lt_or_ge hi v with hv2 | hv2
    · rw [if_pos hv2]; omega
    · rw [if_neg (Nat.not_lt.mpr hv2)]; omega

theorem find_first_preferred (pre : List SurfaceFormat) (f : SurfaceFormat)
    (post : List SurfaceFormat) (hpre : ∀ g ∈ pre, isPreferredFormat g = false)
    (hf : isPreferredFormat f = true) :
    List.find? isPreferredFormat (pre ++ f :: post) = some f := by
  induction pre with
  | nil => simp [List.find?_cons, hf]
  | cons g pre ih =>
    have hg : isPreferredFormat g = false := hpre g (by simp)
    rw [List.cons_append, List.find?_cons_of_neg _ (by simp [hg])]
    exact ih (fun x hx => hpre x (by simp [hx]))

theorem chooseSwapSurfaceFormat_isSome (l : List SurfaceFormat) (h : l ≠ []) :
    (chooseSwapSurfaceFormat l).isSome = true := by
  unfold chooseSwapSurfaceFormat
  cases hf : List.find? isPreferredFormat l with
  | some f => rfl
  | none =>
    cases l with
    | nil => exact absurd rfl h
    | cons a t => rfl

/-! ## Claim C5 -/

/-- Claim C5: with both queue family roles resolved to `g` and `p`, the swap
chain creation record uses CONCURRENT sharing iff `g ≠ p`, and in that case
lists exactly the two indices `[g, p]`; with `g = p` it uses EXCLUSIVE and
supplies no index list (count 0, null pointer). -/
theorem c5_sharing_mode (fbWidth fbHeight : Nat) (d : DeviceProfile) (g p : Nat)
    (hg : (findQueueFamilies d).graphicsFamily = some g)
    (hp : (findQueueFamilies d).presentFamily = some p)
    (hsome : (createSwapChainInfo fbWidth fbHeight d).isSome = true) :
    (createSwapChainInfo fbWidth fbHeight d).map SwapchainCreateInfo.imageSharingMode =
      some (if g = p then SharingMode.exclusive else SharingMode.concurrent)
    ∧ (createSwapChainInfo fbWidth fbHeight d).map SwapchainCreateInfo.queueFamilyIndexCount =
      some (if g = p then 0 else 2)
    ∧ (createSwapChainInfo fbWidth fbHeight d).map SwapchainCreateInfo.pQueueFamilyIndices =
      some (if g = p then [] else [g, p]) := by
  cases hfmt : chooseSwapSurfaceFormat (querySwapChainSupport d).formats with
  | none => simp [createSwapChainInfo, hfmt] at hsome
  | some f =>
    simp only [createSwapChainInfo, hfmt, hg, hp, Option.map_some]
    by_cases hgp : g = p
    · subst hgp; simp
    · simp [hgp]

/-- Claim C5 witness: on `devE3` the two roles resolve to families 0 and 1,
and the record is CONCURRENT with index list `[0, 1]` of count 2. -/
theorem c5_witness :
    (createSwapChainInfo 800 600 devE3).map SwapchainCreateInfo.imageSharingMode =
      some (if (0 : Nat) = 1 then SharingMode.exclusive else SharingMode.concurrent)
    ∧ (createSwapChainInfo 800 600 devE3).map SwapchainCreateInfo.queueFamilyIndexCount =
      some (if (0 : Nat) = 1 then 0 else 2)
    ∧ (createSwapChainInfo 800 600 devE3).map SwapchainCreateInfo.pQueueFamilyIndices =
      some (if (0 : Nat) = 1 then [] else [0, 1]) :=
  c5_sharing_mode 800 600 devE3 0 1 rfl rfl rfl

/-! ## Claim C6 (amended) -/

/-- Claim C6 as amended: the requested image count equals
`minImageCount + 1`, reduced to `maxImageCount` when `maxImageCount > 0` and
`minImageCount + 1` exceeds it; consequently `maxImageCount == 0` or
`c ≤ maxImageCount`, and `minImageCount + 1 ≤ c` holds whenever additionally
`maxImageCount == 0` or `minImageCount + 1 ≤ maxImageCount` (the original
unconditional lower bound fails when `maxImageCount` is positive but below
`minImageCount + 1`). -/
theorem c6_image_count (fbWidth fbHeight : Nat) (d : DeviceProfile)
    (hsome : (createSwapChainInfo fbWidth fbHeight d).isSome = true)
    (hov : d.capabilities.minImageCount + 1 < UINT32_MOD) :
    (createSwapChainInfo fbWidth fbHeight d).map SwapchainCreateInfo.minImageCount =
      some (if 0 < d.capabilities.maxImageCount ∧
               d.capabilities.minImageCount + 1 > d.capabilities.maxImageCount
            then d.capabilities.maxImageCount else d.capabilities.minImageCount + 1)
    ∧ (d.capabilities.maxImageCount = 0
        ∨ (if 0 < d.capabilities.maxImageCount ∧
              d.capabilities.minImageCount + 1 > d.capabilities.maxImageCount
           then d.capabilities.maxImageCount else d.capabilities.minImageCount + 1)
          ≤ d.capabilities.maxImageCount)
    ∧ ((d.capabilities.maxImageCount = 0
        ∨ d.capabilities.minImageCount + 1 ≤ d.capabilities.maxImageCount) →
        d.capabilities.minImageCount + 1 ≤
          (if 0 < d.capabilities.maxImageCount ∧
              d.capabilities.minImageCount + 1 > d.capabilities.maxImageCount
           then d.capabilities.maxImageCount else d.capabilities.minImageCount + 1)) := by
  refine ⟨?_, ?_, ?_⟩
  · cases hfmt : chooseSwapSurfaceFormat (querySwapChainSupport d).formats with
    | none => simp [createSwapChainInfo, hfmt] at hsome
    | some f =>
      cases hg : (findQueueFamilies d).graphicsFamily with
      | none => simp [createSwapChainInfo, hfmt, hg] at hsome
      | some g =>
        cases hp : (findQueueFamilies d).presentFamily with
        | none => simp [createSwapChainInfo, hfmt, hg, hp] at hsome
        | some p =>
          simp only [createSwapChainInfo, hfmt, hg, hp,
            show (querySwapChainSupport d).capabilities = d.capabilities from rfl]
          rw [Nat.mod_eq_of_lt hov]
          rfl
  · rcases Nat.eq_zero_or_pos d.capabilities.maxImageCount with h0 | h0
    · exact Or.inl h0
    · right
      by_cases hc : 0 < d.capabilities.maxImageCount ∧
          d.capabilities.minImageCount + 1 > d.capabilities.maxImageCount
      · rw [if_pos hc]
      · rw [if_neg hc]
        push_neg at hc
        exact hc h0
  · intro hmin
    by_cases hc : 0 < d.capabilities.maxImageCount ∧
        d.capabilities.minImageCount + 1 > d.capabilities.maxImageCount
    · rw [if_pos hc]
      rcases hc with ⟨h1, h2⟩
      rcases hmin with h0 | h3 <;> omega
    · rw [if_neg hc]

/-- Claim C6 witness: on `devE1` (`minImageCount = 2`, unbounded max) the
requested count is as the amended claim computes it. -/
theorem c6_witness :
    (createSwapChainInfo 800 600 devE1).map SwapchainCreateInfo.minImageCount =
      some (if 0 < devE1.capabilities.maxImageCount ∧
               devE1.capabilities.minImageCount + 1 > devE1.capabilities.maxImageCount
            then devE1.capabilities.maxImageCount else devE1.capabilities.minImageCount + 1) :=
  (c6_image_count 800 600 devE1 rfl (by decide)).1

/-! ## Claim C7 -/

/-- Claim C7: the final enabled-extension list of the instance creation
record equals the toolkit-reported extensions with the debug-utils extension
appended iff validation is enabled, and (the toolkit never reporting the
swap-chain device extension) the swap-chain extension name is not in it —
the earlier assignment of `deviceExtensions` to that slot (main.cpp:198-199)
is dead, overwritten at main.cpp:215-217. -/
theorem c7_instance_extensions (glfwExtensions : List String) (enableValidation : Bool)
    (hglfw : VK_KHR_SWAPCHAIN_EXTENSION_NAME ∉ glfwExtensions) :
    (buildInstanceCreateInfo glfwExtensions enableValidation).enabledExtensionNames =
      glfwExtensions ++ (if enableValidation then [VK_EXT_DEBUG_UTILS_EXTENSION_NAME] else [])
    ∧ VK_KHR_SWAPCHAIN_EXTENSION_NAME ∉
      (buildInstanceCreateInfo glfwExtensions enableValidation).enabledExtensionNames := by
  have h1 : (buildInstanceCreateInfo glfwExtensions enableValidation).enabledExtensionNames =
      glfwExtensions ++ (if enableValidation then [VK_EXT_DEBUG_UTILS_EXTENSION_NAME] else []) := by
    cases enableValidation <;> rfl
  refine ⟨h1, ?_⟩
  rw [h1]
  intro hmem
  rcases List.mem_append.mp hmem with h | h
  · exact hglfw h
  · cases enableValidation
    · simp at h
    · simp only [if_pos rfl, List.mem_singleton] at h
      exact absurd h (by decide)

/-- Claim C7 witness at a concrete toolkit extension list with validation
enabled. -/
theorem c7_witness :
    (buildInstanceCreateInfo ["VK_KHR_surface"] true).enabledExtensionNames =
      ["VK_KHR_surface"] ++ (if true then [VK_EXT_DEBUG_UTILS_EXTENSION_NAME] else []) :=
  (c7_instance_extensions ["VK_KHR_surface"] true (by decide)).1

/-! ## Claim C8 -/

/-- Claim C8: the chosen extent is `currentExtent` verbatim whenever
`currentExtent.width ≠ 0xFFFFFFFF`; otherwise it is the framebuffer size with
each dimension clamped to `[minImageExtent, maxImageExtent]` (the clamp
bounds being ordered, as the Vulkan spec guarantees and as `std::clamp`
requires). -/
theorem c8_swap_extent (fbWidth fbHeight : Nat) (capabilities : SurfaceCapabilities)
    (hw : capabilities.minImageExtent.width ≤ capabilities.maxImageExtent.width)
    (hh : capabilities.minImageExtent.height ≤ capabilities.maxImageExtent.height) :
    (capabilities.currentExtent.width ≠ UINT32_MAX →
      chooseSwapExtent fbWidth fbHeight capabilities = capabilities.currentExtent)
    ∧ (capabilities.currentExtent.width = UINT32_MAX →
      chooseSwapExtent fbWidth fbHeight capabilities =
        { width := min (max fbWidth capabilities.minImageExtent.width)
            capabilities.maxImageExtent.width
          height := min (max fbHeight capabilities.minImageExtent.height)
            capabilities.maxImageExtent.height }) := by
  constructor
  · intro hne
    unfold chooseSwapExtent
    rw [if_pos hne]
  · intro heq
    unfold chooseSwapExtent
    rw [if_neg (by simp [heq])]
    rw [cppClamp_eq_min_max _ _ _ hw, cppClamp_eq_min_max _ _ _ hh]

/-- Claim C8 witness, scenario E4 of the spec: framebuffer 1600x1200 clamped
into 640x480 .. 1280x1024 gives 1280x1024. -/
theorem c8_witness :
    capE4.currentExtent.width = UINT32_MAX
    ∧ chooseSwapExtent 1600 1200 capE4 = { width := 1280, height := 1024 } := by
  refine ⟨rfl, ?_⟩
  have h := (c8_swap_extent 1600 1200 capE4 (by decide) (by decide)).2 rfl
  exact h.trans (by decide)

/-! ## Claim C9 -/

/-- Claim C9: for a non-empty format list, the chosen surface format is the
first (BGRA8 sRGB, sRGB nonlinear) pair when one occurs (for every
decomposition exhibiting such a first pair, that pair is chosen), and
otherwise the head of the list. -/
theorem c9_surface_format (availableFormats : List SurfaceFormat)
    (hne : availableFormats ≠ []) :
    (∀ pre f post, availableFormats = pre ++ f :: post →
      (∀ g ∈ pre, isPreferredFormat g = false) → isPreferredFormat f = true →
      chooseSwapSurfaceFormat availableFormats = some f)
    ∧ ((∀ f ∈ availableFormats, isPreferredFormat f = false) →
      ∀ f post, availableFormats = f :: post →
        chooseSwapSurfaceFormat availableFormats = some f) := by
  constructor
  · intro pre f post hsplit hpre hf
    subst hsplit
    unfold chooseSwapSurfaceFormat
    rw [find_first_preferred pre f post hpre hf]
  · intro hall f post hsplit
    subst hsplit
    unfold chooseSwapSurfaceFormat
    rw [List.find?_eq_none.mpr (fun x hx => by simp [hall x hx])]
    rfl

/-- Claim C9 witness: in `lC9` the preferred pair sits at index 1 behind one
non-preferred entry, and it is chosen. -/
theorem c9_witness :
    chooseSwapSurfaceFormat lC9 = some { format := 50, colorSpace := 0 } :=
  (c9_surface_format lC9 (by decide)).1
    [{ format := 10, colorSpace := 5 }] { format := 50, colorSpace := 0 }
    [{ format := 99, colorSpace := 99 }] rfl (by decide) (by decide)

/-! ## Claim C10 -/

/-- Claim C10: `chooseSwapSurfaceFormat` has no bounds guard on its fallback
`availableFormats[0]` (modelled: the empty list yields `none`), but every
device accepted by `isDeviceSuitable` has a non-empty `formats` list in the
(deterministic) swap-chain support query, which is exactly the list
`createSwapChain` later passes, so the out-of-bounds read is unreachable on
the program's call path. -/
theorem c10_fallback_guarded :
    chooseSwapSurfaceFormat ([] : List SurfaceFormat) = none
    ∧ ∀ d : DeviceProfile, isDeviceSuitable d = true →
        (querySwapChainSupport d).formats ≠ []
        ∧ (chooseSwapSurfaceFormat (querySwapChainSupport d).formats).isSome = true := by
  constructor
  · rfl
  · intro d hsuit
    have hfor : (querySwapChainSupport d).formats ≠ [] := by
      by_cases hext : checkDeviceExtensionSupport d = true
      · simp only [isDeviceSuitable, hext, if_pos, Bool.and_eq_true, Bool.not_eq_true] at hsuit
        intro hnil
        rw [hnil] at hsuit
        simp at hsuit
      · have hextf : checkDeviceExtensionSupport d = false := by
          revert hext; cases checkDeviceExtensionSupport d <;> simp
        simp [isDeviceSuitable, hextf] at hsuit
    exact ⟨hfor, chooseSwapSurfaceFormat_isSome _ hfor⟩

/-- Claim C10 witness: the suitable device `devE1` indeed yields a non-empty
format list and a defined chosen format. -/
theorem c10_witness :
    isDeviceSuitable devE1 = true
    ∧ ((querySwapChainSupport devE1).formats ≠ []
      ∧ (chooseSwapSurfaceFormat (querySwapChainSupport devE1).formats).isSome = true) :=
  ⟨by decide, c10_fallback_guarded.2 devE1 (by decide)⟩

/-! ## Stage-level state lemmas for the lifecycle -/

theorem createInstanceS_error_state (env : Env) (s : AppState) (e : String × AppState)
    (h : createInstanceS env s = Except.error e) : e.snd = s := by
  unfold createInstanceS at h
  repeat' split at h
  all_goals first
    | (injection h with h1; subst h1; rfl)
    | injection h

theorem createInstanceS_ok_state (env : Env) (s s' : AppState)
    (h : createInstanceS env s = Except.ok s') : s' = acquireS Handle.vinstance s := by
  unfold createInstanceS at h
  repeat' split at h
  all_goals first
    | (injection h with h1; subst h1; rfl)
    | injection h

theorem setupDebugMessengerS_error_state (env : Env) (s : AppState) (e : String × AppState)
    (h : setupDebugMessengerS env s = Except.error e) : e.snd = s := by
  unfold setupDebugMessengerS at h
  repeat' split at h
  all_goals first
    | (injection h with h1; subst h1; rfl)
    | injection h

theorem setupDebugMessengerS_ok_state (env : Env) (s s' : AppState)
    (h : setupDebugMessengerS env s = Except.ok s') :
    s' = if env.enableValidationLayers then acquireS Handle.debugMessenger s else s := by
  unfold setupDebugMessengerS at h
  repeat' split at h
  all_goals first
    | (injection h with h1; subst h1; simp_all)
    | injection h

theorem createSurfaceS_error_state (env : Env) (s : AppState) (e : String × AppState)
    (h : createSurfaceS env s = Except.error e) : e.snd = s := by
  unfold createSurfaceS at h
  repeat' split at h
  all_goals first
    | (injection h with h1; subst h1; rfl)
    | injection h

theorem createSurfaceS_ok_state (env : Env) (s s' : AppState)
    (h : createSurfaceS env s = Except.ok s') : s' = acquireS Handle.surface s := by
  unfold createSurfaceS at h
  repeat' split at h
  all_goals first
    | (injection h with h1; subst h1; rfl)
    | injection h

theorem createLogicalDeviceS_error_state (env : Env) (d : DeviceProfile) (s : AppState)
    (e : String × AppState) (h : createLogicalDeviceS env d s = Except.error e) : e.snd = s := by
  unfold createLogicalDeviceS at h
  repeat' split at h
  all_goals first
    | (injection h with h1; subst h1; rfl)
    | injection h

theorem createLogicalDeviceS_ok_state (env : Env) (d : DeviceProfile) (s s' : AppState)
    (h : createLogicalDeviceS env d s = Except.ok s') : s' = acquireS Handle.device s := by
  unfold createLogicalDeviceS at h
  repeat' split at h
  all_goals first
    | (injection h with h1; subst h1; rfl)
    | injection h

theorem createSwapChainS_error_state (env : Env) (d : DeviceProfile) (s : AppState)
    (e : String × AppState) (h : createSwapChainS env d s = Except.error e) : e.snd = s := by
  unfold createSwapChainS at h
  repeat' split at h
  all_goals first
    | (injection h with h1; subst h1; rfl)
    | injection h

theorem createSwapChainS_ok_state (env : Env) (d : DeviceProfile) (s s' : AppState)
    (h : createSwapChainS env d s = Except.ok s') : s' = acquireS Handle.swapChain s := by
  unfold createSwapChainS at h
  repeat' split at h
  all_goals first
    | (injection h with h1; subst h1; rfl)
    | injection h

/-- The effect of `cleanupS` on the event lists, as a function of the
validation flag. -/
theorem cleanupS_eq (env : Env) (s : AppState) :
    cleanupS env s = AppState.mk s.acquired
      (s.released ++ [Handle.swapChain, Handle.device]
        ++ (if env.enableValidationLayers then [Handle.debugMessenger] else [])
        ++ [Handle.surface, Handle.vinstance, Handle.window, Handle.toolkit]) := by
  cases hv : env.enableValidationLayers <;> simp [cleanupS, releaseS, hv]

/-! ## Claim C3 (amended) -/

/-- Claim C3 as amended: when any initialization stage fails, the error
propagates to `main` and the process exits non-zero WITHOUT releasing any
already-acquired resource — `cleanup` runs only on the success path, so in
particular the opened window is not destroyed and the toolkit is not
terminated. -/
theorem c3_amended (env : Env) (s : AppState) (h : appMain env = (1, s)) :
    s.released = [] ∧ Handle.window ∈ s.acquired ∧ Handle.toolkit ∈ s.acquired := by
  unfold appMain at h
  cases h1 : createInstanceS env (initWindowS {}) with
  | error e =>
    simp only [h1] at h
    have hs : e.snd = s := congrArg Prod.snd h
    subst hs
    rw [createInstanceS_error_state env (initWindowS {}) e h1]
    decide
  | ok s1 =>
    simp only [h1] at h
    have hs1 := createInstanceS_ok_state env (initWindowS {}) s1 h1
    cases h2 : setupDebugMessengerS env s1 with
    | error e =>
      simp only [h2] at h
      have hs : e.snd = s := congrArg Prod.snd h
      subst hs
      rw [setupDebugMessengerS_error_state env s1 e h2, hs1]
      decide
    | ok s2 =>
      simp only [h2] at h
      have hs2 := setupDebugMessengerS_ok_state env s1 s2 h2
      cases h3 : createSurfaceS env s2 with
      | error e =>
        simp only [h3] at h
        have hs : e.snd = s := congrArg Prod.snd h
        subst hs
        rw [createSurfaceS_error_state env s2 e h3, hs2, hs1]
        cases hv : env.enableValidationLayers <;> decide
      | ok s3 =>
        simp only [h3] at h
        have hs3 := createSurfaceS_ok_state env s2 s3 h3
        cases h4 : pickPhysicalDeviceS env.devices with
        | error e2 =>
          simp only [h4] at h
          have hs : s3 = s := congrArg Prod.snd h
          subst hs
          rw [hs3, hs2, hs1]
          cases hv : env.enableValidationLayers <;> decide
        | ok dphys =>
          simp only [h4] at h
          cases h5 : createLogicalDeviceS env dphys s3 with
          | error e =>
            simp only [h5] at h
            have hs : e.snd = s := congrArg Prod.snd h
            subst hs
            rw [createLogicalDeviceS_error_state env dphys s3 e h5, hs3, hs2, hs1]
            cases hv : env.enableValidationLayers <;> decide
          | ok s4 =>
            simp only [h5] at h
            have hs4 := createLogicalDeviceS_ok_state env dphys s3 s4 h5
            cases h6 : createSwapChainS env dphys s4 with
            | error e =>
              simp only [h6] at h
              have hs : e.snd = s := congrArg Prod.snd h
              subst hs
              rw [createSwapChainS_error_state env dphys s4 e h6, hs4, hs3, hs2, hs1]
              cases hv : env.enableValidationLayers <;> decide
            | ok s5 =>
              simp only [h6] at h
              simp at h

/-- Claim C3 amended witness: in scenario E2 the failing run releases
nothing although window and toolkit were acquired. -/
theorem c3_amended_witness :
    (appMain envE2).snd.released = []
    ∧ Handle.window ∈ (appMain envE2).snd.acquired
    ∧ Handle.toolkit ∈ (appMain envE2).snd.acquired :=
  c3_amended envE2 (appMain envE2).snd (by decide)

/-! ## Claim C4 (amended) -/

/-- Claim C4 as amended: on a successful run teardown releases the owned
handles in the fixed order swap chain, logical device, debug messenger (iff
validation is enabled), surface, instance, window, toolkit; every acquired
handle is destroyed exactly once (no handle twice, none that was not
acquired), and no handle is used after its destroy call: in the teardown
event trace (whose destroy events are exactly the released handles, in
order) no later event involves a handle once a destroy event for it has
occurred — the device is used (by `vkDestroySwapchainKHR`) only before
`vkDestroyDevice`, and the instance is used (by the messenger teardown and
`vkDestroySurfaceKHR`) only before `vkDestroyInstance`; initialization-time
uses all precede the whole trace, since destroys happen only in `cleanup`.
This order is the exact reverse of acquisition order when validation is
disabled; with validation enabled it deviates from the exact reverse in one
place: the debug messenger, acquired before the surface, is also destroyed
before the surface. -/
theorem c4_amended (env : Env) (s : AppState) (h : appMain env = (0, s)) :
    s.released = [Handle.swapChain, Handle.device]
        ++ (if env.enableValidationLayers then [Handle.debugMessenger] else [])
        ++ [Handle.surface, Handle.vinstance, Handle.window, Handle.toolkit]
    ∧ (∀ x : Handle, x ∈ s.released ↔ x ∈ s.acquired)
    ∧ s.released.Nodup
    ∧ destroysOf (cleanupTrace env.enableValidationLayers) = s.released
    ∧ (cleanupTrace env.enableValidationLayers).Pairwise
        (fun e1 e2 => ∀ x : Handle, e1 = CleanupEvent.destroy x → e2.handleOf ≠ x)
    ∧ (env.enableValidationLayers = false → s.released = s.acquired.reverse) := by
  unfold appMain at h
  cases h1 : createInstanceS env (initWindowS {}) with
  | error e =>
    simp only [h1] at h
    simp at h
  | ok s1 =>
    simp only [h1] at h
    have hs1 := createInstanceS_ok_state env (initWindowS {}) s1 h1
    cases h2 : setupDebugMessengerS env s1 with
    | error e =>
      simp only [h2] at h
      simp at h
    | ok s2 =>
      simp only [h2] at h
      have hs2 := setupDebugMessengerS_ok_state env s1 s2 h2
      cases h3 : createSurfaceS env s2 with
      | error e =>
        simp only [h3] at h
        simp at h
      | ok s3 =>
        simp only [h3] at h
        have hs3 := createSurfaceS_ok_state env s2 s3 h3
        cases h4 : pickPhysicalDeviceS env.devices with
        | error e2 =>
          simp only [h4] at h
          simp at h
        | ok dphys =>
          simp only [h4] at h
          cases h5 : createLogicalDeviceS env dphys s3 with
          | error e =>
            simp only [h5] at h
            simp at h
          | ok s4 =>
            simp only [h5] at h
            have hs4 := createLogicalDeviceS_ok_state env dphys s3 s4 h5
            cases h6 : createSwapChainS env dphys s4 with
            | error e =>
              simp only [h6] at h
              simp at h
            | ok s5 =>
              simp only [h6] at h
              have hs5 := createSwapChainS_ok_state env dphys s4 s5 h6
              have hs : cleanupS env s5 = s := congrArg Prod.snd h
              subst hs
              rw [hs5, hs4, hs3, hs2, hs1, cleanupS_eq]
              cases hv : env.enableValidationLayers <;> decide

/-- Claim C4 amended witness: the fully successful validation-enabled run
releases in exactly the listed order. -/
theorem c4_amended_witness :
    (appMain envOK).snd.released = [Handle.swapChain, Handle.device]
        ++ (if envOK.enableValidationLayers then [Handle.debugMessenger] else [])
        ++ [Handle.surface, Handle.vinstance, Handle.window, Handle.toolkit] :=
  (c4_amended envOK (appMain envOK).snd (by decide)).1

end VulkanBringUp
